import Mathlib

/-
Formal model of the Twitch live-session metrics accumulator from
src/twitch_data_collection: the event handlers and poll-driven status check
of apps/twitch_analytic_tracker.py (mirrored by chat_handler.py and
stream_monitor.py) and the batch-flush helpers of data_storage.py.

Event handlers are embedded as pure state transformers over an explicit
TrackerState.  Durable-sink writes are recorded as an ordered log of tagged
write events.  Wall-clock time is passed to each handler as a rational
number of minutes since an arbitrary epoch; the daily-file append helper of
data_storage.py is additionally embedded at the string level, since its
claim is about the exact bytes written.
-/

set_option autoImplicit false

namespace TwitchTracker

/-- Wall-clock time, measured in minutes since an arbitrary epoch. -/
abbrev Time := ℚ

/-- A chat-message record, as built in on_chat_message
(twitch_analytic_tracker.py lines 391-400).  The channel, badges and
message-id fields play no role in any claim and are elided. -/
structure ChatRecord where
  timestamp : Time
  sender : String
  text : String
  is_subscriber : Bool
  is_mod : Bool
deriving DecidableEq

/-- A subscription record, as built in on_subscription (lines 461-468). -/
structure SubRecord where
  timestamp : Time
  user : String
  tier : String
  is_gift : Bool
  total_months : Nat
deriving DecidableEq

/-- An entry of live_metrics.recent_events: timestamp, type, message. -/
structure EventEntry where
  timestamp : Time
  type : String
  message : String
deriving DecidableEq

/-- An entry of live_metrics.viewer_retention. -/
structure RetentionPoint where
  timestamp : Time
  viewer_count : Nat
deriving DecidableEq

/-- An entry of live_metrics.chat_activity: a calendar-minute bucket and its
message count.  The bucket key is the truncation of the event time to the
minute. -/
structure ActivityBucket where
  minute : ℤ
  message_count : Nat
deriving DecidableEq

/-- A record of the viewer_counts batch buffer (lines 1164-1168). -/
structure ViewerRecord where
  timestamp : Time
  viewer_count : Nat
  stream_id : String
deriving DecidableEq

/-- A record of the stream_metrics batch buffer (lines 1153-1161). -/
structure StreamRecord where
  timestamp : Time
  viewer_count : Nat
  stream_duration : ℚ
  game_id : String
  stream_id : String
deriving DecidableEq

/-- The live_metrics dictionary (twitch_analytic_tracker.py lines 83-97). -/
structure LiveMetrics where
  is_live : Bool
  stream_started_at : Option Time
  current_viewers : Nat
  peak_viewers : Nat
  subscriber_count : Nat
  new_subs_today : Nat
  total_chat_messages : Nat
  chat_messages_per_minute : ℚ
  unique_chatters : Nat
  viewer_retention : List RetentionPoint
  chat_activity : List ActivityBucket
  recent_subscribers : List SubRecord
  recent_events : List EventEntry
deriving DecidableEq

/-- The four batch-buffer categories. -/
inductive Category
  | chat
  | subs
  | viewer
  | stream
deriving DecidableEq

/-- A tagged durable-sink write.  Each constructor stands for one S3
put_object call of the source (the bodies of the JSON/CSV snapshots play no
role in the claims and are elided; the daily-append body is modelled
separately at the string level by appendToDailyFile below). -/
inductive SinkWrite
  | rawEvent (eventType : String)
  | metricsJson (c : Category)
  | rawBatchJson (c : Category)
  | csvSnapshot (c : Category)
  | dailyAppend (c : Category)
  | viewerSample
  | streamStartMarker
  | streamEndMarker
  | statusSnapshot
deriving DecidableEq

/-- The full mutable state of the tracker process: live_metrics plus the
four module-level batch buffers, plus the ordered log of sink writes. -/
structure TrackerState where
  lm : LiveMetrics
  chat_messages : List ChatRecord
  viewer_counts : List ViewerRecord
  stream_metrics : List StreamRecord
  subscriber_events : List SubRecord
  sink : List SinkWrite
deriving DecidableEq

/-- live_metrics at process start (twitch_analytic_tracker.py lines 83-97). -/
def initMetrics : LiveMetrics :=
  { is_live := false
    stream_started_at := none
    current_viewers := 0
    peak_viewers := 0
    subscriber_count := 0
    new_subs_today := 0
    total_chat_messages := 0
    chat_messages_per_minute := 0
    unique_chatters := 0
    viewer_retention := []
    chat_activity := []
    recent_subscribers := []
    recent_events := [] }

/-- Process start state: empty buffers, empty sink log (lines 76-97). -/
def initState : TrackerState :=
  { lm := initMetrics
    chat_messages := []
    viewer_counts := []
    stream_metrics := []
    subscriber_events := []
    sink := [] }

/-- Python list truncation pattern `if len(l) > n: l = l[-n:]`, used to
bound viewer_retention (60), chat_activity (30), recent_subscribers (20)
and recent_events (100). -/
def keepLast {α : Type} (n : Nat) (l : List α) : List α :=
  if l.length > n then l.drop (l.length - n) else l

/-- Python max over two rationals, used to clamp the elapsed-minutes
divisor below by one (twitch_analytic_tracker.py line 446). -/
def pymax (a b : ℚ) : ℚ := if Rat.blt a b then b else a

/-- Chat-metrics batch flush, save_chat_metrics
(twitch_analytic_tracker.py lines 572-693): early return on an empty
buffer; otherwise write the metrics JSON, the raw batch JSON, the CSV
snapshot and the daily-CSV append, then clear the buffer in place. -/
def save_chat_metrics (s : TrackerState) : TrackerState :=
  if s.chat_messages = [] then s
  else
    { s with
      sink := s.sink ++
        [.metricsJson .chat, .rawBatchJson .chat, .csvSnapshot .chat,
         .dailyAppend .chat]
      chat_messages := [] }

/-- Subscriber-data batch flush, save_subscriber_data (lines 695-764):
early return on an empty buffer; otherwise write the JSON snapshot, the
CSV snapshot and the daily-CSV append, then clear the buffer. -/
def save_subscriber_data (s : TrackerState) : TrackerState :=
  if s.subscriber_events = [] then s
  else
    { s with
      sink := s.sink ++
        [.metricsJson .subs, .csvSnapshot .subs, .dailyAppend .subs]
      subscriber_events := [] }

/-- Viewer-stats batch flush, save_viewer_stats (lines 766-835). -/
def save_viewer_stats (s : TrackerState) : TrackerState :=
  if s.viewer_counts = [] then s
  else
    { s with
      sink := s.sink ++
        [.metricsJson .viewer, .csvSnapshot .viewer, .dailyAppend .viewer]
      viewer_counts := [] }

/-- Stream-metrics batch flush, save_stream_metrics (lines 837-906). -/
def save_stream_metrics (s : TrackerState) : TrackerState :=
  if s.stream_metrics = [] then s
  else
    { s with
      sink := s.sink ++
        [.metricsJson .stream, .csvSnapshot .stream, .dailyAppend .stream]
      stream_metrics := [] }

/-- Recent-events message for a chat message: the sender name, the text
truncated to 50 characters, and an ellipsis when truncation happened
(twitch_analytic_tracker.py line 419). -/
def truncateMessage (sender text : String) : String :=
  sender ++ ": " ++ text.take 50 ++ (if text.length > 50 then "..." else "")

/-- Truncation of a time to its calendar minute, the chat_activity bucket
key (line 424: now().replace with second and microsecond zeroed). -/
def minuteBucket (t : Time) : ℤ := ⌊t⌋

/-- The find-and-increment loop over chat_activity (lines 427-432): returns
the list with the first matching bucket incremented, or none when no bucket
matches the current minute. -/
def bumpBucket (m : ℤ) : List ActivityBucket → Option (List ActivityBucket)
  | [] => none
  | b :: rest =>
    if b.minute = m then
      some ({ b with message_count := b.message_count + 1 } :: rest)
    else
      (bumpBucket m rest).map (fun r => b :: r)

/-- Chat-message handler, on_chat_message (twitch_analytic_tracker.py
lines 386-454, identical to chat_handler.py lines 17-87): append the
record to the chat buffer, write the per-event JSON, bump
total_chat_messages, recompute unique_chatters from the senders of the
current buffer, append the recent-events entry (with no length trim),
update the current-minute chat_activity bucket (trimming to 30 only when a
new bucket is created), recompute chat_messages_per_minute only when live
with a start time (with the divisor clamped below by one minute), and
finally flush the chat buffer once its length reaches 50. -/
def on_chat_message (t : Time) (sender text : String)
    (is_subscriber is_mod : Bool) (s : TrackerState) : TrackerState :=
  let record : ChatRecord := ⟨t, sender, text, is_subscriber, is_mod⟩
  let buf := s.chat_messages ++ [record]
  let total := s.lm.total_chat_messages + 1
  let uniq := ((buf.map ChatRecord.sender).dedup).length
  let events := s.lm.recent_events ++ [⟨t, "chat", truncateMessage sender text⟩]
  let activity :=
    match bumpBucket (minuteBucket t) s.lm.chat_activity with
    | some a => a
    | none => keepLast 30 (s.lm.chat_activity ++ [⟨minuteBucket t, 1⟩])
  let cmpm :=
    match s.lm.is_live, s.lm.stream_started_at with
    | true, some st => (total : ℚ) / pymax 1 (t - st)
    | _, _ => s.lm.chat_messages_per_minute
  let s1 : TrackerState :=
    { s with
      chat_messages := buf
      sink := s.sink ++ [.rawEvent "chat_message"]
      lm := { s.lm with
        total_chat_messages := total
        unique_chatters := uniq
        recent_events := events
        chat_activity := activity
        chat_messages_per_minute := cmpm } }
  if s1.chat_messages.length ≥ 50 then save_chat_metrics s1 else s1

/-- Tier-name mapping of on_subscription (lines 485-489): default Tier 1,
overridden for the raw codes 2000 and 3000. -/
def tier_name (tier : String) : String :=
  if tier = "2000" then "Tier 2"
  else if tier = "3000" then "Tier 3"
  else "Tier 1"

/-- Recent-events message of on_subscription (lines 491-495): user, tier
name, optional gift marker, optional month count. -/
def subEventMessage (user tier : String) (is_gift : Bool)
    (total_months : Nat) : String :=
  user ++ " subscribed (" ++ tier_name tier ++ ")"
    ++ (if is_gift then " (gifted)" else "")
    ++ (if total_months > 1 then " - " ++ toString total_months ++ " months"
        else "")

/-- Subscription handler, on_subscription (lines 456-510): append to the
subscriber buffer, write the per-event JSON, bump new_subs_today, append
to recent_subscribers trimming to 20, append the rendered recent-events
entry trimming to 100, then flush the subscriber buffer unconditionally. -/
def on_subscription (t : Time) (user tier : String) (is_gift : Bool)
    (total_months : Nat) (s : TrackerState) : TrackerState :=
  let sub : SubRecord := ⟨t, user, tier, is_gift, total_months⟩
  let s1 : TrackerState :=
    { s with
      subscriber_events := s.subscriber_events ++ [sub]
      sink := s.sink ++ [.rawEvent "subscription"]
      lm := { s.lm with
        new_subs_today := s.lm.new_subs_today + 1
        recent_subscribers := keepLast 20 (s.lm.recent_subscribers ++ [sub])
        recent_events := keepLast 100 (s.lm.recent_events ++
          [⟨t, "subscription", subEventMessage user tier is_gift total_months⟩]) } }
  save_subscriber_data s1

/-- Recent-events message of on_raid (line 531). -/
def raidEventMessage (raider : String) (viewer_count : Nat) : String :=
  raider ++ " raided with " ++ toString viewer_count ++ " viewers"

/-- Raid handler, on_raid (lines 512-538): write the per-event JSON and
append the recent-events entry trimming to 100; no buffering. -/
def on_raid (t : Time) (raider : String) (viewer_count : Nat)
    (s : TrackerState) : TrackerState :=
  { s with
    sink := s.sink ++ [.rawEvent "raid"]
    lm := { s.lm with
      recent_events := keepLast 100 (s.lm.recent_events ++
        [⟨t, "raid", raidEventMessage raider viewer_count⟩]) } }

/-- The stream payload reported by a poll while the channel is live
(fields of stream_info.data[0] used by check_stream_status). -/
structure StreamInfo where
  viewer_count : Nat
  game_id : String
  stream_id : String
  started_at : Time
deriving DecidableEq

/-- Poll-driven status check, check_stream_status (twitch_analytic_tracker.py
lines 1081-1278; same structure as StreamMonitor.check_stream_status in
stream_monitor.py).  On a live report: the OFFLINE-to-LIVE branch sets
is_live, stream_started_at, and both current_viewers and peak_viewers to
the reported count, appends a stream-started recent event (no trim) and
writes the start marker; the steady LIVE branch updates current and peak,
appends to viewer_retention trimming to 60, appends to the stream-metrics
and viewer-count buffers, writes the individual viewer sample, and flushes
each buffer once it holds at least 10 records.  On an offline report while
live: clear is_live, append the stream-ended event and write the end
marker when a start time is known (string formatting of timestamps into
the event messages is elided), then flush the viewer, stream and chat
buffers unconditionally.  Every poll ends by writing the status snapshot. -/
def check_stream_status (t : Time) (info : Option StreamInfo)
    (s : TrackerState) : TrackerState :=
  let s' :=
    match info with
    | some d =>
      if s.lm.is_live then
        let lm : LiveMetrics := { s.lm with
          current_viewers := d.viewer_count
          peak_viewers := max s.lm.peak_viewers d.viewer_count
          viewer_retention := keepLast 60 (s.lm.viewer_retention ++
            [(⟨t, d.viewer_count⟩ : RetentionPoint)]) }
        let dur : ℚ :=
          match s.lm.stream_started_at with
          | some st => t - st
          | none => 0
        let s1 : TrackerState :=
          { s with
            lm := lm
            stream_metrics := s.stream_metrics ++
              [(⟨t, d.viewer_count, dur, d.game_id, d.stream_id⟩ : StreamRecord)]
            viewer_counts := s.viewer_counts ++
              [(⟨t, d.viewer_count, d.stream_id⟩ : ViewerRecord)]
            sink := s.sink ++ [SinkWrite.viewerSample] }
        let s2 := if s1.viewer_counts.length ≥ 10 then save_viewer_stats s1 else s1
        if s2.stream_metrics.length ≥ 10 then save_stream_metrics s2 else s2
      else
        { s with
          lm := { s.lm with
            is_live := true
            stream_started_at := some d.started_at
            current_viewers := d.viewer_count
            peak_viewers := d.viewer_count
            recent_events := s.lm.recent_events ++
              [(⟨t, "stream", "Stream started"⟩ : EventEntry)] }
          sink := s.sink ++ [SinkWrite.streamStartMarker] }
    | none =>
      if s.lm.is_live then
        let s1 : TrackerState := { s with lm := { s.lm with is_live := false } }
        let s2 : TrackerState :=
          match s1.lm.stream_started_at with
          | some _ =>
            { s1 with
              lm := { s1.lm with
                recent_events := s1.lm.recent_events ++
                  [(⟨t, "stream", "Stream ended"⟩ : EventEntry)] }
              sink := s1.sink ++ [SinkWrite.streamEndMarker] }
          | none => s1
        save_chat_metrics (save_stream_metrics (save_viewer_stats s2))
      else s
  { s' with sink := s'.sink ++ [SinkWrite.statusSnapshot] }

/-- One external event fed to the tracker. -/
inductive Ev
  | chat (t : Time) (sender text : String) (is_subscriber is_mod : Bool)
  | sub (t : Time) (user tier : String) (is_gift : Bool) (total_months : Nat)
  | raid (t : Time) (raider : String) (viewer_count : Nat)
  | poll (t : Time) (info : Option StreamInfo)
deriving DecidableEq

/-- Dispatch one event to its handler. -/
def step (s : TrackerState) (e : Ev) : TrackerState :=
  match e with
  | .chat t sender text isSub isMod => on_chat_message t sender text isSub isMod s
  | .sub t user tier g m => on_subscription t user tier g m s
  | .raid t r v => on_raid t r v s
  | .poll t info => check_stream_status t info s

/-- Run a sequence of events from process start. -/
def run (evs : List Ev) : TrackerState := evs.foldl step initState

/-
String-level embedding of the daily consolidated append,
data_storage.py lines 425-470 (the same code is inlined in the tracker at
twitch_analytic_tracker.py lines 654-686 and its siblings).
-/

/-- Rendering of pandas DataFrame.to_csv with index=False: the optional
header line followed by one line per record, each line terminated by a
newline character. -/
def toCsv (header : Bool) (headerLine : String) (rows : List String) : String :=
  String.join (((if header then [headerLine] else []) ++ rows).map
    (fun r => r ++ "\n"))

/-- Helper for afterFirstNewline: drop characters through the first
newline. -/
def dropThroughNewline : List Char → List Char
  | [] => []
  | c :: cs => if c = '\n' then cs else dropThroughNewline cs

/-- Everything after the first newline of a string: the second component of
the Python expression value.split with separator newline and maxsplit one,
indexed at one.  For an input that contains no newline the Python indexing
raises; here it yields the empty string, and every input the source feeds
in ends each row with a newline so the case never arises. -/
def afterFirstNewline (s : String) : String := ⟨dropThroughNewline s.data⟩

/-- The put_object call issued for the daily file: its body string and
whether the append metadata marker is attached. -/
structure DailyPut where
  body : String
  appendMarker : Bool
deriving DecidableEq

/-- Daily consolidated append, data_storage.py append helper lines 443-468:
render the buffer with a header only when the daily object does not yet
exist; when it exists, put everything after the first line of the rendered
text with the append marker, otherwise put the full rendered text. -/
def append_to_daily_file (daily_exists : Bool) (headerLine : String)
    (rows : List String) : DailyPut :=
  let daily_buffer := toCsv (!daily_exists) headerLine rows
  if daily_exists then
    { body := afterFirstNewline daily_buffer, appendMarker := true }
  else
    { body := daily_buffer, appendMarker := false }

/-
Exception-level embedding of the per-event save with local backup,
data_storage.py lines 83-170 and twitch_analytic_tracker.py lines 540-570.
-/

/-- Behaviour of the underlying S3 put_object call: it either succeeds or
raises an exception. -/
inductive PutOutcome
  | ok
  | raises
deriving DecidableEq

/-- The put_object client call as a fallible computation. -/
def putObject (put : PutOutcome) : Except Unit Unit :=
  match put with
  | .ok => Except.ok ()
  | .raises => Except.error ()

/-- data_storage.save_to_s3 (lines 98-108): put_object wrapped in a
try-except that catches every error, so the function never raises; it
returns a success Bool instead. -/
def save_to_s3 (put : PutOutcome) : Bool :=
  match putObject put with
  | .ok _ => true
  | .error _ => false

/-- Observable outcome of a per-event save: whether the local backup file
under data/backup was written. -/
structure EventSaveResult where
  backup_written : Bool
deriving DecidableEq

/-- data_storage.save_event_to_s3 (lines 129-170): the try-body builds the
key and calls save_to_s3, whose internally caught failure surfaces only as
an ignored Bool; the except-branch that writes the data/backup file runs
only when the try-body itself raises. -/
def save_event_to_s3 (put : PutOutcome) : EventSaveResult :=
  let tryBody : Except Unit Unit := do
    let _ok := save_to_s3 put
    pure ()
  match tryBody with
  | .ok _ => { backup_written := false }
  | .error _ => { backup_written := true }

/-- TwitchAnalyticsTracker.save_event_to_s3 (twitch_analytic_tracker.py
lines 540-570): the try-body calls put_object directly, so a put failure
raises into the except-branch, which writes the data/backup file. -/
def tracker_save_event_to_s3 (put : PutOutcome) : EventSaveResult :=
  let tryBody : Except Unit Unit := do
    let _ ← putObject put
    pure ()
  match tryBody with
  | .ok _ => { backup_written := false }
  | .error _ => { backup_written := true }

/-
Helper lemmas about the embedded operations.
-/

theorem keepLast_length {α : Type} (n : Nat) (l : List α) :
    (keepLast n l).length = min l.length n := by
  unfold keepLast
  split
  · rename_i h
    rw [List.length_drop]
    omega
  · rename_i h
    omega

theorem keepLast_eq_drop {α : Type} (n : Nat) (l : List α) :
    ∃ k, keepLast n l = l.drop k := by
  unfold keepLast
  split
  · exact ⟨l.length - n, rfl⟩
  · exact ⟨0, rfl⟩

theorem keepLast_concat_getLast? {α : Type} (n : Nat) (hn : 0 < n)
    (l : List α) (x : α) :
    (keepLast n (l ++ [x])).getLast? = some x := by
  unfold keepLast
  split
  · rename_i h
    rw [List.drop_append_of_le_length (by simp at h ⊢; omega)]
    exact List.getLast?_concat _
  · exact List.getLast?_concat _

theorem bumpBucket_length (m : ℤ) :
    ∀ (l l' : List ActivityBucket), bumpBucket m l = some l' →
      l'.length = l.length := by
  intro l
  induction l with
  | nil => intro l' h; simp [bumpBucket] at h
  | cons b rest ih =>
    intro l' h
    unfold bumpBucket at h
    split at h
    · cases h
      simp
    · cases hr : bumpBucket m rest with
      | none => rw [hr] at h; simp at h
      | some r =>
        rw [hr] at h
        simp at h
        subst h
        simp [ih r hr]

theorem save_chat_metrics_lm (s : TrackerState) :
    (save_chat_metrics s).lm = s.lm := by
  unfold save_chat_metrics; split <;> rfl

theorem save_subscriber_data_lm (s : TrackerState) :
    (save_subscriber_data s).lm = s.lm := by
  unfold save_subscriber_data; split <;> rfl

theorem save_viewer_stats_lm (s : TrackerState) :
    (save_viewer_stats s).lm = s.lm := by
  unfold save_viewer_stats; split <;> rfl

theorem save_stream_metrics_lm (s : TrackerState) :
    (save_stream_metrics s).lm = s.lm := by
  unfold save_stream_metrics; split <;> rfl

theorem save_chat_metrics_clears (s : TrackerState) :
    (save_chat_metrics s).chat_messages = [] := by
  unfold save_chat_metrics
  split
  · assumption
  · rfl

theorem save_viewer_stats_clears (s : TrackerState) :
    (save_viewer_stats s).viewer_counts = [] := by
  unfold save_viewer_stats
  split
  · assumption
  · rfl

theorem save_stream_metrics_clears (s : TrackerState) :
    (save_stream_metrics s).stream_metrics = [] := by
  unfold save_stream_metrics
  split
  · assumption
  · rfl

theorem save_viewer_stats_chat (s : TrackerState) :
    (save_viewer_stats s).chat_messages = s.chat_messages := by
  unfold save_viewer_stats; split <;> rfl

theorem save_viewer_stats_stream (s : TrackerState) :
    (save_viewer_stats s).stream_metrics = s.stream_metrics := by
  unfold save_viewer_stats; split <;> rfl

theorem save_stream_metrics_chat (s : TrackerState) :
    (save_stream_metrics s).chat_messages = s.chat_messages := by
  unfold save_stream_metrics; split <;> rfl

theorem save_stream_metrics_viewer (s : TrackerState) :
    (save_stream_metrics s).viewer_counts = s.viewer_counts := by
  unfold save_stream_metrics; split <;> rfl

theorem save_chat_metrics_viewer (s : TrackerState) :
    (save_chat_metrics s).viewer_counts = s.viewer_counts := by
  unfold save_chat_metrics; split <;> rfl

theorem save_chat_metrics_stream (s : TrackerState) :
    (save_chat_metrics s).stream_metrics = s.stream_metrics := by
  unfold save_chat_metrics; split <;> rfl

theorem save_viewer_stats_sink_superset (s : TrackerState) :
    ∀ w ∈ s.sink, w ∈ (save_viewer_stats s).sink := by
  unfold save_viewer_stats
  split
  · exact fun w hw => hw
  · exact fun w hw => by simp [hw]

theorem save_stream_metrics_sink_superset (s : TrackerState) :
    ∀ w ∈ s.sink, w ∈ (save_stream_metrics s).sink := by
  unfold save_stream_metrics
  split
  · exact fun w hw => hw
  · exact fun w hw => by simp [hw]

theorem save_chat_metrics_sink_superset (s : TrackerState) :
    ∀ w ∈ s.sink, w ∈ (save_chat_metrics s).sink := by
  unfold save_chat_metrics
  split
  · exact fun w hw => hw
  · exact fun w hw => by simp [hw]

theorem save_viewer_stats_daily_mem (s : TrackerState)
    (h : s.viewer_counts ≠ []) :
    SinkWrite.dailyAppend Category.viewer ∈ (save_viewer_stats s).sink := by
  unfold save_viewer_stats
  rw [if_neg h]
  simp

theorem save_stream_metrics_daily_mem (s : TrackerState)
    (h : s.stream_metrics ≠ []) :
    SinkWrite.dailyAppend Category.stream ∈ (save_stream_metrics s).sink := by
  unfold save_stream_metrics
  rw [if_neg h]
  simp

theorem save_chat_metrics_daily_mem (s : TrackerState)
    (h : s.chat_messages ≠ []) :
    SinkWrite.dailyAppend Category.chat ∈ (save_chat_metrics s).sink := by
  unfold save_chat_metrics
  rw [if_neg h]
  simp

/-- The live_metrics update performed by one on_chat_message call: the
trailing conditional flush never touches live_metrics, so the update is
the same whether or not the call flushes. -/
theorem on_chat_message_lm (t : Time) (sender text : String)
    (b1 b2 : Bool) (s : TrackerState) :
    (on_chat_message t sender text b1 b2 s).lm =
      { s.lm with
        total_chat_messages := s.lm.total_chat_messages + 1
        unique_chatters :=
          (((s.chat_messages ++ [(⟨t, sender, text, b1, b2⟩ : ChatRecord)]).map
            ChatRecord.sender).dedup).length
        recent_events := s.lm.recent_events ++
          [(⟨t, "chat", truncateMessage sender text⟩ : EventEntry)]
        chat_activity :=
          match bumpBucket (minuteBucket t) s.lm.chat_activity with
          | some a => a
          | none => keepLast 30 (s.lm.chat_activity ++
              [(⟨minuteBucket t, 1⟩ : ActivityBucket)])
        chat_messages_per_minute :=
          match s.lm.is_live, s.lm.stream_started_at with
          | true, some st =>
            ((s.lm.total_chat_messages + 1 : Nat) : ℚ) / pymax 1 (t - st)
          | _, _ => s.lm.chat_messages_per_minute } := by
  simp only [on_chat_message]
  rw [apply_ite TrackerState.lm, save_chat_metrics_lm, ite_self]

/-- The live_metrics update performed by one on_subscription call: the
unconditional subscriber flush never touches live_metrics. -/
theorem on_subscription_lm (t : Time) (user tier : String) (g : Bool)
    (m : Nat) (s : TrackerState) :
    (on_subscription t user tier g m s).lm =
      { s.lm with
        new_subs_today := s.lm.new_subs_today + 1
        recent_subscribers :=
          keepLast 20 (s.lm.recent_subscribers ++ [⟨t, user, tier, g, m⟩])
        recent_events := keepLast 100 (s.lm.recent_events ++
          [⟨t, "subscription", subEventMessage user tier g m⟩]) } := by
  unfold on_subscription
  rw [save_subscriber_data_lm]

/-- Invariant preservation along a foldl run. -/
theorem foldl_invariant {σ ε : Type} (f : σ → ε → σ) (Inv : σ → Prop)
    (hstep : ∀ s e, Inv s → Inv (f s e)) :
    ∀ (l : List ε) (s : σ), Inv s → Inv (l.foldl f s) := by
  intro l
  induction l with
  | nil => exact fun s h => h
  | cons e rest ih => exact fun s h => ih (f s e) (hstep s e h)

/-- Invariant preservation along two foldl runs driven by the same events. -/
theorem foldl_invariant_pair {σ τ ε : Type} (f : σ → ε → σ) (g : τ → ε → τ)
    (Inv : σ → τ → Prop)
    (hstep : ∀ s p e, Inv s p → Inv (f s e) (g p e)) :
    ∀ (l : List ε) (s : σ) (p : τ), Inv s p →
      Inv (l.foldl f s) (l.foldl g p) := by
  intro l
  induction l with
  | nil => exact fun s p h => h
  | cons e rest ih => exact fun s p h => ih (f s e) (g p e) (hstep s p e h)

theorem flush_chain_clears (x : TrackerState) :
    (save_chat_metrics (save_stream_metrics (save_viewer_stats x))).viewer_counts = [] ∧
    (save_chat_metrics (save_stream_metrics (save_viewer_stats x))).stream_metrics = [] ∧
    (save_chat_metrics (save_stream_metrics (save_viewer_stats x))).chat_messages = [] := by
  refine ⟨?_, ?_, ?_⟩
  · rw [save_chat_metrics_viewer, save_stream_metrics_viewer, save_viewer_stats_clears]
  · rw [save_chat_metrics_stream, save_stream_metrics_clears]
  · rw [save_chat_metrics_clears]

theorem flush_chain_daily (x : TrackerState) :
    (x.viewer_counts ≠ [] → SinkWrite.dailyAppend Category.viewer ∈
      (save_chat_metrics (save_stream_metrics (save_viewer_stats x))).sink) ∧
    (x.stream_metrics ≠ [] → SinkWrite.dailyAppend Category.stream ∈
      (save_chat_metrics (save_stream_metrics (save_viewer_stats x))).sink) ∧
    (x.chat_messages ≠ [] → SinkWrite.dailyAppend Category.chat ∈
      (save_chat_metrics (save_stream_metrics (save_viewer_stats x))).sink) := by
  refine ⟨fun hv => ?_, fun hs => ?_, fun hc => ?_⟩
  · exact save_chat_metrics_sink_superset _ _ (save_stream_metrics_sink_superset _ _
      (save_viewer_stats_daily_mem x hv))
  · exact save_chat_metrics_sink_superset _ _
      (save_stream_metrics_daily_mem _ (by rw [save_viewer_stats_stream]; exact hs))
  · exact save_chat_metrics_daily_mem _
      (by rw [save_stream_metrics_chat, save_viewer_stats_chat]; exact hc)

theorem tier_name_spec (tier : String) :
    (tier_name tier = "Tier 2" ↔ tier = "2000") ∧
    (tier_name tier = "Tier 3" ↔ tier = "3000") ∧
    (tier ≠ "2000" → tier ≠ "3000" → tier_name tier = "Tier 1") := by
  unfold tier_name
  split_ifs with h1 h2 <;> simp_all

/-
Claim theorems.
-/

/-- C3 (code bug): the daily consolidated append, evaluated at a two-record
buffer.  When the daily object already exists the buffer is rendered with
no header yet the code still strips everything up to the first newline, so
the body it puts is only the second record and the first buffered record
is lost; when the daily object is absent the body carries the header and
both records.  This contradicts the claim (and the comment in the source)
that every buffered record is written in either case. -/
theorem daily_append_drops_first_row :
    append_to_daily_file true "timestamp,sender" ["t1,alice", "t2,bob"] =
      { body := "t2,bob\n", appendMarker := true } ∧
    append_to_daily_file false "timestamp,sender" ["t1,alice", "t2,bob"] =
      { body := "timestamp,sender\nt1,alice\nt2,bob\n",
        appendMarker := false } := by
  constructor <;> rfl

/-- C4 (code bug): when the S3 put raises, data_storage.save_event_to_s3
writes no local backup, because save_to_s3 swallows the error and returns
a Bool that the caller ignores; the inline tracker variant of the same
routine, which calls put_object directly, does write the backup on the
same failure. -/
theorem event_save_backup_not_written_on_put_error :
    (save_event_to_s3 PutOutcome.raises).backup_written = false ∧
    (tracker_save_event_to_s3 PutOutcome.raises).backup_written = true :=
  ⟨rfl, rfl⟩

/-- C9: each of the four batch-flush routines, invoked with its buffer
empty, returns the state unchanged — no sink write, no buffer change, no
live-metrics change. -/
theorem empty_flush_noop (s : TrackerState) :
    (s.chat_messages = [] → save_chat_metrics s = s) ∧
    (s.subscriber_events = [] → save_subscriber_data s = s) ∧
    (s.viewer_counts = [] → save_viewer_stats s = s) ∧
    (s.stream_metrics = [] → save_stream_metrics s = s) := by
  refine ⟨fun h => ?_, fun h => ?_, fun h => ?_, fun h => ?_⟩ <;>
    simp [save_chat_metrics, save_subscriber_data, save_viewer_stats,
      save_stream_metrics, h]

/-- Witness for empty_flush_noop at the initial state. -/
theorem empty_flush_noop_witness :
    initState.chat_messages = [] ∧ save_chat_metrics initState = initState ∧
    initState.subscriber_events = [] ∧
    save_subscriber_data initState = initState ∧
    initState.viewer_counts = [] ∧ save_viewer_stats initState = initState ∧
    initState.stream_metrics = [] ∧ save_stream_metrics initState = initState :=
  ⟨rfl, (empty_flush_noop initState).1 rfl, rfl,
   (empty_flush_noop initState).2.1 rfl, rfl,
   (empty_flush_noop initState).2.2.1 rfl, rfl,
   (empty_flush_noop initState).2.2.2 rfl⟩

/-- C10: the recent-events entry appended by on_subscription renders the
tier through tier_name, and tier_name yields Tier 2 exactly for the raw
code 2000, Tier 3 exactly for 3000, and Tier 1 for every other string. -/
theorem subscription_tier_rendering :
    (∀ (t : Time) (user tier : String) (g : Bool) (m : Nat)
        (s : TrackerState),
      (on_subscription t user tier g m s).lm.recent_events.getLast? =
        some ⟨t, "subscription", subEventMessage user tier g m⟩) ∧
    (∀ tier : String,
      (tier_name tier = "Tier 2" ↔ tier = "2000") ∧
      (tier_name tier = "Tier 3" ↔ tier = "3000") ∧
      (tier ≠ "2000" → tier ≠ "3000" → tier_name tier = "Tier 1")) := by
  constructor
  · intro t user tier g m s
    rw [on_subscription_lm]
    exact keepLast_concat_getLast? 100 (by omega) _ _
  · exact tier_name_spec

/-- Witness for subscription_tier_rendering at a malformed tier code. -/
theorem subscription_tier_rendering_witness :
    (on_subscription 0 "alice" "1500" false 1 initState).lm.recent_events.getLast?
      = some ⟨0, "subscription", "alice subscribed (Tier 1)"⟩ ∧
    ("1500" : String) ≠ "2000" ∧ ("1500" : String) ≠ "3000" ∧
    tier_name "1500" = "Tier 1" ∧
    tier_name "2000" = "Tier 2" ∧ tier_name "3000" = "Tier 3" :=
  ⟨(subscription_tier_rendering.1 0 "alice" "1500" false 1 initState).trans
      (by decide),
   by decide, by decide,
   (subscription_tier_rendering.2 "1500").2.2 (by decide) (by decide),
   (subscription_tier_rendering.2 "2000").1.mpr rfl,
   (subscription_tier_rendering.2 "3000").2.1.mpr rfl⟩

/-- Event trace for the rate-clamp counterexample: the stream goes live at
time zero, nine chat messages arrive immediately, and a tenth arrives half
a minute in. -/
def cmpmTrace : List Ev :=
  Ev.poll 0 (some ⟨5, "g", "i", 0⟩) ::
    (List.replicate 9 (Ev.chat 0 "a" "hi" false false) ++
      [Ev.chat (1/2) "a" "hi" false false])

set_option maxRecDepth 8000 in
/-- C8 counterexample: half a minute into a live stream with ten messages,
the stored chat_messages_per_minute is 10 — the divisor is clamped below
by one minute — whereas the total divided by the elapsed minutes is 20. -/
theorem cmpm_clamp_counterexample :
    (run cmpmTrace).lm.is_live = true ∧
    (run cmpmTrace).lm.stream_started_at = some 0 ∧
    (run cmpmTrace).lm.total_chat_messages = 10 ∧
    (run cmpmTrace).lm.chat_messages_per_minute = 10 ∧
    ((run cmpmTrace).lm.total_chat_messages : ℚ) / ((1 : ℚ) / 2 - 0) = 20 ∧
    (run cmpmTrace).lm.chat_messages_per_minute ≠
      ((run cmpmTrace).lm.total_chat_messages : ℚ) / ((1 : ℚ) / 2 - 0) := by
  with_unfolding_all decide

/-- C8 amended: while live with a known start time, on_chat_message sets
chat_messages_per_minute to the new total divided by the elapsed minutes
clamped below by one; when not live the field is left unchanged. -/
theorem cmpm_amended (t : Time) (sender text : String) (b1 b2 : Bool)
    (s : TrackerState) :
    (∀ st : Time, s.lm.is_live = true → s.lm.stream_started_at = some st →
      (on_chat_message t sender text b1 b2 s).lm.chat_messages_per_minute =
        ((s.lm.total_chat_messages + 1 : Nat) : ℚ) / pymax 1 (t - st)) ∧
    (s.lm.is_live = false →
      (on_chat_message t sender text b1 b2 s).lm.chat_messages_per_minute =
        s.lm.chat_messages_per_minute) := by
  constructor
  · intro st hl hst
    rw [on_chat_message_lm]
    simp [hl, hst]
  · intro hl
    rw [on_chat_message_lm]
    cases hsa : s.lm.stream_started_at <;> simp [hl, hsa]

/-- Witness for cmpm_amended: one message two minutes into a live stream
with nine prior messages gives a rate of five per minute; and a message
while offline leaves the rate untouched. -/
theorem cmpm_amended_witness :
    (run cmpmTrace).lm.is_live = true ∧
    (run cmpmTrace).lm.stream_started_at = some 0 ∧
    (on_chat_message 2 "a" "hi" false false (run cmpmTrace)).lm.chat_messages_per_minute
      = (((run cmpmTrace).lm.total_chat_messages + 1 : Nat) : ℚ) / pymax 1 (2 - 0) ∧
    initState.lm.is_live = false ∧
    (on_chat_message 2 "a" "hi" false false initState).lm.chat_messages_per_minute
      = initState.lm.chat_messages_per_minute :=
  ⟨by with_unfolding_all decide, by with_unfolding_all decide,
   (cmpm_amended 2 "a" "hi" false false (run cmpmTrace)).1 0
     (by with_unfolding_all decide) (by with_unfolding_all decide),
   rfl,
   (cmpm_amended 2 "a" "hi" false false initState).2 rfl⟩

/-- Lifetime distinct senders of the chat messages of an event trace. -/
def lifetimeSenders (evs : List Ev) : List String :=
  (evs.filterMap (fun e =>
    match e with
    | Ev.chat _ sender _ _ _ => some sender
    | _ => none)).dedup

/-- Event trace for the unique-chatters counterexample: fifty messages
from alice, which trigger the chat flush, then one message from bob. -/
def chatBurst : List Ev :=
  List.replicate 50 (Ev.chat 0 "alice" "hi" false false) ++
    [Ev.chat 0 "bob" "hi" false false]

set_option maxRecDepth 100000 in
/-- C1 counterexample: the trace has two distinct lifetime senders, but
after the fiftieth message flushes and clears the chat buffer, the
fifty-first message recomputes unique_chatters over the refilled buffer
alone, yielding one. -/
theorem unique_chatters_lifetime_counterexample :
    (run chatBurst).lm.unique_chatters = 1 ∧
    (lifetimeSenders chatBurst).length = 2 ∧
    (run chatBurst).lm.unique_chatters ≠ (lifetimeSenders chatBurst).length := by
  with_unfolding_all decide

/-- C1 amended: unique_chatters is recomputed by each on_chat_message as
the number of distinct senders in the chat buffer after appending the
current message, and a chat flush clears that buffer while leaving the
stored unique_chatters value untouched — so the count restarts from the
buffer contents at the next message rather than spanning the process
lifetime. -/
theorem unique_chatters_buffer_recompute :
    (∀ (t : Time) (sender text : String) (b1 b2 : Bool) (s : TrackerState),
      (on_chat_message t sender text b1 b2 s).lm.unique_chatters =
        (((s.chat_messages ++ [(⟨t, sender, text, b1, b2⟩ : ChatRecord)]).map
          ChatRecord.sender).dedup).length) ∧
    (∀ s : TrackerState,
      (save_chat_metrics s).lm.unique_chatters = s.lm.unique_chatters ∧
      (save_chat_metrics s).chat_messages = []) := by
  constructor
  · intro t sender text b1 b2 s
    rw [on_chat_message_lm]
  · intro s
    exact ⟨by rw [save_chat_metrics_lm], save_chat_metrics_clears s⟩

/-- Event trace for the recent-events bound counterexample. -/
def chatFlood : List Ev :=
  List.replicate 101 (Ev.chat 0 "alice" "hi" false false)

set_option maxRecDepth 100000 in
/-- C2 counterexample: one hundred and one chat messages leave one hundred
and one recent-events entries — on_chat_message appends its entry with no
trim, so the claimed bound of one hundred fails right after the handler
returns. -/
theorem recent_events_unbounded_counterexample :
    (run chatFlood).lm.recent_events.length = 101 := by
  with_unfolding_all decide

/-- C6: a poll that reports no active stream while is_live is true runs
the LIVE-to-OFFLINE transition, which flushes the viewer, stream and chat
batch buffers regardless of their size thresholds: afterwards all three
buffers are empty, and for each buffer that was non-empty the sink log
contains that category's daily append. -/
theorem stream_end_flushes_buffers (t : Time) (s : TrackerState)
    (h : s.lm.is_live = true) :
    (check_stream_status t none s).viewer_counts = [] ∧
    (check_stream_status t none s).stream_metrics = [] ∧
    (check_stream_status t none s).chat_messages = [] ∧
    (s.viewer_counts ≠ [] → SinkWrite.dailyAppend Category.viewer ∈
      (check_stream_status t none s).sink) ∧
    (s.stream_metrics ≠ [] → SinkWrite.dailyAppend Category.stream ∈
      (check_stream_status t none s).sink) ∧
    (s.chat_messages ≠ [] → SinkWrite.dailyAppend Category.chat ∈
      (check_stream_status t none s).sink) := by
  unfold check_stream_status
  dsimp only
  rw [if_pos h]
  cases hsa : s.lm.stream_started_at with
  | none =>
    exact ⟨(flush_chain_clears _).1, (flush_chain_clears _).2.1,
      (flush_chain_clears _).2.2,
      fun hv => List.mem_append_left _ ((flush_chain_daily _).1 hv),
      fun hs2 => List.mem_append_left _ ((flush_chain_daily _).2.1 hs2),
      fun hc => List.mem_append_left _ ((flush_chain_daily _).2.2 hc)⟩
  | some st =>
    exact ⟨(flush_chain_clears _).1, (flush_chain_clears _).2.1,
      (flush_chain_clears _).2.2,
      fun hv => List.mem_append_left _ ((flush_chain_daily _).1 hv),
      fun hs2 => List.mem_append_left _ ((flush_chain_daily _).2.1 hs2),
      fun hc => List.mem_append_left _ ((flush_chain_daily _).2.2 hc)⟩

/-- A live state with all three buffers below their flush thresholds, used
to witness the forced flush on stream end. -/
def endWitnessState : TrackerState :=
  { lm := { initMetrics with
      is_live := true
      stream_started_at := some 0
      current_viewers := 7
      peak_viewers := 9 }
    chat_messages := [⟨0, "alice", "hi", false, false⟩]
    viewer_counts := [⟨0, 7, "i"⟩, ⟨1, 8, "i"⟩, ⟨2, 7, "i"⟩]
    stream_metrics := [⟨0, 7, 0, "g", "i"⟩, ⟨1, 8, 1, "g", "i"⟩]
    subscriber_events := []
    sink := [] }

/-- Witness for stream_end_flushes_buffers: three buffered viewer samples,
two stream samples and one chat record, all below their thresholds, are
flushed by the offline poll. -/
theorem stream_end_flushes_buffers_witness :
    endWitnessState.lm.is_live = true ∧
    ((check_stream_status 3 none endWitnessState).viewer_counts = [] ∧
     (check_stream_status 3 none endWitnessState).stream_metrics = [] ∧
     (check_stream_status 3 none endWitnessState).chat_messages = [] ∧
     (endWitnessState.viewer_counts ≠ [] →
       SinkWrite.dailyAppend Category.viewer ∈
         (check_stream_status 3 none endWitnessState).sink) ∧
     (endWitnessState.stream_metrics ≠ [] →
       SinkWrite.dailyAppend Category.stream ∈
         (check_stream_status 3 none endWitnessState).sink) ∧
     (endWitnessState.chat_messages ≠ [] →
       SinkWrite.dailyAppend Category.chat ∈
         (check_stream_status 3 none endWitnessState).sink)) :=
  ⟨rfl, stream_end_flushes_buffers 3 endWitnessState rfl⟩

/-- Arguments of one chat-message callback, for running plain chat-only
traces. -/
structure ChatArgs where
  t : Time
  sender : String
  text : String
  is_subscriber : Bool
  is_mod : Bool

/-- Apply one chat-message callback. -/
def applyChat (s : TrackerState) (a : ChatArgs) : TrackerState :=
  on_chat_message a.t a.sender a.text a.is_subscriber a.is_mod s

/-- Run a sequence of consecutive chat-message callbacks. -/
def runChats (args : List ChatArgs) (s : TrackerState) : TrackerState :=
  args.foldl applyChat s

/-- Recognizer for the chat-category daily-CSV append in the sink log. -/
def isChatDaily : SinkWrite → Bool
  | .dailyAppend .chat => true
  | _ => false

/-- Number of daily chat-CSV appends recorded in the sink log. -/
def chatDailyAppends (s : TrackerState) : Nat := s.sink.countP isChatDaily

theorem on_chat_message_no_flush (t : Time) (a b : String) (c d : Bool)
    (s : TrackerState) (h : s.chat_messages.length + 1 < 50) :
    (on_chat_message t a b c d s).chat_messages
        = s.chat_messages ++ [⟨t, a, b, c, d⟩] ∧
    (on_chat_message t a b c d s).sink
        = s.sink ++ [SinkWrite.rawEvent "chat_message"] := by
  unfold on_chat_message
  dsimp only
  rw [if_neg (by simp only [List.length_append, List.length_cons,
    List.length_nil]; omega)]
  exact ⟨rfl, rfl⟩

theorem on_chat_message_flush_at_50 (t : Time) (a b : String) (c d : Bool)
    (s : TrackerState) (h : s.chat_messages.length = 49) :
    (on_chat_message t a b c d s).chat_messages = [] ∧
    (on_chat_message t a b c d s).sink
        = (s.sink ++ [SinkWrite.rawEvent "chat_message"]) ++
          [SinkWrite.metricsJson Category.chat,
           SinkWrite.rawBatchJson Category.chat,
           SinkWrite.csvSnapshot Category.chat,
           SinkWrite.dailyAppend Category.chat] := by
  unfold on_chat_message
  dsimp only
  rw [if_pos (by simp only [List.length_append, List.length_cons,
    List.length_nil]; omega)]
  unfold save_chat_metrics
  rw [if_neg (by simp)]
  exact ⟨rfl, rfl⟩

theorem runChats_no_flush :
    ∀ (args : List ChatArgs) (s : TrackerState),
      s.chat_messages.length + args.length ≤ 49 →
      (runChats args s).chat_messages.length
          = s.chat_messages.length + args.length ∧
      chatDailyAppends (runChats args s) = chatDailyAppends s := by
  intro args
  induction args with
  | nil => intro s h; exact ⟨by simp [runChats], rfl⟩
  | cons a rest ih =>
    intro s h
    have hlt : s.chat_messages.length + 1 < 50 := by
      simp only [List.length_cons] at h; omega
    obtain ⟨hb, hs⟩ := on_chat_message_no_flush a.t a.sender a.text
      a.is_subscriber a.is_mod s hlt
    have hmid1 : (applyChat s a).chat_messages.length
        = s.chat_messages.length + 1 := by
      unfold applyChat; rw [hb]; simp
    have hmid2 : chatDailyAppends (applyChat s a) = chatDailyAppends s := by
      unfold applyChat chatDailyAppends
      rw [hs, List.countP_append]
      simp [isChatDaily]
    have hrest := ih (applyChat s a)
      (by rw [hmid1]; simp only [List.length_cons] at h; omega)
    refine ⟨?_, ?_⟩
    · show (runChats rest (applyChat s a)).chat_messages.length = _
      rw [hrest.1, hmid1]
      simp only [List.length_cons]
      omega
    · show chatDailyAppends (runChats rest (applyChat s a)) = _
      rw [hrest.2, hmid2]

/-- C7: for any run of consecutive chat messages starting from an empty
chat buffer, the first forty-nine messages leave a buffer of length
forty-nine with no daily chat append performed, and the fiftieth message
triggers exactly one chat-metrics flush: the buffer is empty immediately
afterwards and exactly one daily chat-CSV append was added to the sink
log. -/
theorem chat_flush_at_fifty (s0 : TrackerState) (h0 : s0.chat_messages = [])
    (args : List ChatArgs) (hlen : args.length = 50) :
    (runChats (args.take 49) s0).chat_messages.length = 49 ∧
    chatDailyAppends (runChats (args.take 49) s0) = chatDailyAppends s0 ∧
    (runChats args s0).chat_messages = [] ∧
    chatDailyAppends (runChats args s0) = chatDailyAppends s0 + 1 := by
  have htake : (args.take 49).length = 49 := by
    rw [List.length_take]; omega
  have h49 := runChats_no_flush (args.take 49) s0
    (by rw [h0, htake]; simp)
  have hmidlen : (runChats (args.take 49) s0).chat_messages.length = 49 := by
    rw [h49.1, h0, htake]; simp
  obtain ⟨a, hdrop⟩ : ∃ a, args.drop 49 = [a] :=
    List.length_eq_one.mp (by rw [List.length_drop]; omega)
  have hsplit : runChats args s0
      = applyChat (runChats (args.take 49) s0) a := by
    conv_lhs => rw [← List.take_append_drop 49 args, hdrop]
    unfold runChats
    rw [List.foldl_append]
    rfl
  obtain ⟨hb50, hs50⟩ := on_chat_message_flush_at_50 a.t a.sender a.text
    a.is_subscriber a.is_mod (runChats (args.take 49) s0) hmidlen
  refine ⟨hmidlen, h49.2, ?_, ?_⟩
  · rw [hsplit]; exact hb50
  · rw [hsplit]
    show chatDailyAppends (on_chat_message a.t a.sender a.text
      a.is_subscriber a.is_mod (runChats (args.take 49) s0)) = _
    unfold chatDailyAppends
    rw [hs50, List.countP_append, List.countP_append]
    have hmid := h49.2
    unfold chatDailyAppends at hmid
    rw [hmid]
    simp [isChatDaily]

/-- Fifty identical chat callbacks, the witness trace for the flush
threshold. -/
def fiftyChats : List ChatArgs :=
  List.replicate 50 ⟨0, "a", "hi", false, false⟩

/-- Witness for chat_flush_at_fifty at the initial state and fifty
concrete messages. -/
theorem chat_flush_at_fifty_witness :
    initState.chat_messages = [] ∧ fiftyChats.length = 50 ∧
    ((runChats (fiftyChats.take 49) initState).chat_messages.length = 49 ∧
     chatDailyAppends (runChats (fiftyChats.take 49) initState)
        = chatDailyAppends initState ∧
     (runChats fiftyChats initState).chat_messages = [] ∧
     chatDailyAppends (runChats fiftyChats initState)
        = chatDailyAppends initState + 1) :=
  ⟨rfl, by decide, chat_flush_at_fifty initState rfl fiftyChats (by decide)⟩

/-- Live-metrics update of a poll while already live (the steady branch of
check_stream_status): the trailing threshold flushes never touch
live_metrics. -/
theorem check_some_live_lm (t : Time) (d : StreamInfo) (s : TrackerState)
    (h : s.lm.is_live = true) :
    (check_stream_status t (some d) s).lm =
      { s.lm with
        current_viewers := d.viewer_count
        peak_viewers := max s.lm.peak_viewers d.viewer_count
        viewer_retention := keepLast 60 (s.lm.viewer_retention ++
          [(⟨t, d.viewer_count⟩ : RetentionPoint)]) } := by
  unfold check_stream_status
  dsimp only
  rw [if_pos h]
  rw [apply_ite TrackerState.lm, save_stream_metrics_lm, ite_self,
    apply_ite TrackerState.lm, save_viewer_stats_lm, ite_self]

/-- Live-metrics update of a poll that finds the stream newly live (the
OFFLINE-to-LIVE branch of check_stream_status). -/
theorem check_some_start_lm (t : Time) (d : StreamInfo) (s : TrackerState)
    (h : s.lm.is_live = false) :
    (check_stream_status t (some d) s).lm =
      { s.lm with
        is_live := true
        stream_started_at := some d.started_at
        current_viewers := d.viewer_count
        peak_viewers := d.viewer_count
        recent_events := s.lm.recent_events ++
          [(⟨t, "stream", "Stream started"⟩ : EventEntry)] } := by
  unfold check_stream_status
  dsimp only
  rw [if_neg (by simp [h])]

/-- Live-metrics facts about a poll that reports no active stream: it
always leaves is_live false and never touches viewer_retention,
chat_activity, recent_subscribers, peak_viewers or current_viewers. -/
theorem check_none_lm (t : Time) (s : TrackerState) :
    (check_stream_status t none s).lm.is_live = false ∧
    (check_stream_status t none s).lm.viewer_retention
        = s.lm.viewer_retention ∧
    (check_stream_status t none s).lm.chat_activity = s.lm.chat_activity ∧
    (check_stream_status t none s).lm.recent_subscribers
        = s.lm.recent_subscribers ∧
    (check_stream_status t none s).lm.peak_viewers = s.lm.peak_viewers ∧
    (check_stream_status t none s).lm.current_viewers
        = s.lm.current_viewers := by
  unfold check_stream_status
  dsimp only
  split
  · rw [save_chat_metrics_lm, save_stream_metrics_lm, save_viewer_stats_lm]
    cases hsa : s.lm.stream_started_at <;>
      exact ⟨rfl, rfl, rfl, rfl, rfl, rfl⟩
  · rename_i hnl
    refine ⟨?_, rfl, rfl, rfl, rfl, rfl⟩
    cases hq : s.lm.is_live
    · rfl
    · exact absurd hq hnl

/-- Ghost view of the poll samples of the current live segment: whether
the last poll reported the stream live, and the viewer counts reported by
polls since the current stream started (empty while offline; reset to the
first reported count at the OFFLINE-to-LIVE transition). -/
structure SegView where
  live : Bool
  samples : List Nat
deriving DecidableEq

/-- Advance the ghost sample view by one event. -/
def segStep (p : SegView) (e : Ev) : SegView :=
  match e with
  | .poll _ (some d) =>
    if p.live then { live := true, samples := p.samples ++ [d.viewer_count] }
    else { live := true, samples := [d.viewer_count] }
  | .poll _ none => { live := false, samples := [] }
  | _ => p

/-- The ghost sample view of a whole trace. -/
def segView (evs : List Ev) : SegView :=
  evs.foldl segStep { live := false, samples := [] }

/-- Running maximum of a sample list. -/
def runningMax (l : List Nat) : Nat := l.foldl Nat.max 0

theorem runningMax_append (l : List Nat) (v : Nat) :
    runningMax (l ++ [v]) = Nat.max (runningMax l) v := by
  unfold runningMax
  rw [List.foldl_append]
  rfl

theorem runningMax_singleton (v : Nat) : runningMax [v] = v := by
  unfold runningMax
  rw [List.foldl_cons, List.foldl_nil]
  exact max_eq_right (Nat.zero_le v)

/-- Relation between the tracker state and the ghost sample view that the
step function preserves. -/
def PeakInv (s : TrackerState) (p : SegView) : Prop :=
  s.lm.is_live = p.live ∧
  (p.live = true → p.samples ≠ [] ∧
    s.lm.peak_viewers = runningMax p.samples ∧
    s.lm.current_viewers ≤ s.lm.peak_viewers)

theorem peakInv_step (s : TrackerState) (p : SegView) (e : Ev)
    (h : PeakInv s p) : PeakInv (step s e) (segStep p e) := by
  obtain ⟨h1, h2⟩ := h
  cases e with
  | chat t a b c d =>
    have hlm := on_chat_message_lm t a b c d s
    refine ⟨?_, fun hp => ?_⟩
    · show (on_chat_message t a b c d s).lm.is_live = p.live
      rw [hlm]; exact h1
    · obtain ⟨hne, hpeak, hcur⟩ := h2 hp
      refine ⟨hne, ?_, ?_⟩
      · show (on_chat_message t a b c d s).lm.peak_viewers = _
        rw [hlm]; exact hpeak
      · show (on_chat_message t a b c d s).lm.current_viewers ≤
          (on_chat_message t a b c d s).lm.peak_viewers
        rw [hlm]; exact hcur
  | sub t u tier g m =>
    have hlm := on_subscription_lm t u tier g m s
    refine ⟨?_, fun hp => ?_⟩
    · show (on_subscription t u tier g m s).lm.is_live = p.live
      rw [hlm]; exact h1
    · obtain ⟨hne, hpeak, hcur⟩ := h2 hp
      refine ⟨hne, ?_, ?_⟩
      · show (on_subscription t u tier g m s).lm.peak_viewers = _
        rw [hlm]; exact hpeak
      · show (on_subscription t u tier g m s).lm.current_viewers ≤
          (on_subscription t u tier g m s).lm.peak_viewers
        rw [hlm]; exact hcur
  | raid t r v =>
    exact ⟨h1, fun hp => h2 hp⟩
  | poll t info =>
    cases info with
    | none =>
      refine ⟨?_, fun hp => absurd hp (by simp [segStep])⟩
      show (check_stream_status t none s).lm.is_live = false
      exact (check_none_lm t s).1
    | some d =>
      by_cases hb : s.lm.is_live = true
      · have hp : p.live = true := h1.symm.trans hb
        have hlm := check_some_live_lm t d s hb
        have hseg : segStep p (Ev.poll t (some d)) =
            { live := true, samples := p.samples ++ [d.viewer_count] } := by
          unfold segStep
          dsimp only
          rw [if_pos hp]
        rw [hseg]
        obtain ⟨hne, hpeak, hcur⟩ := h2 hp
        refine ⟨?_, fun _ => ⟨by simp, ?_, ?_⟩⟩
        · show (check_stream_status t (some d) s).lm.is_live = true
          rw [hlm]; exact hb
        · show (check_stream_status t (some d) s).lm.peak_viewers = _
          rw [hlm]
          show max s.lm.peak_viewers d.viewer_count = _
          rw [hpeak, runningMax_append]
        · show (check_stream_status t (some d) s).lm.current_viewers ≤
            (check_stream_status t (some d) s).lm.peak_viewers
          rw [hlm]
          show d.viewer_count ≤ max s.lm.peak_viewers d.viewer_count
          exact le_max_right _ _
      · have hb' : s.lm.is_live = false := by
          cases hq : s.lm.is_live
          · rfl
          · exact absurd hq hb
        have hp : p.live = false := h1.symm.trans hb'
        have hlm := check_some_start_lm t d s hb'
        have hseg : segStep p (Ev.poll t (some d)) =
            { live := true, samples := [d.viewer_count] } := by
          unfold segStep
          dsimp only
          rw [if_neg (by simp [hp])]
        rw [hseg]
        refine ⟨?_, fun _ => ⟨by simp, ?_, ?_⟩⟩
        · show (check_stream_status t (some d) s).lm.is_live = true
          rw [hlm]
        · show (check_stream_status t (some d) s).lm.peak_viewers = _
          rw [hlm]
          show d.viewer_count = _
          rw [runningMax_singleton]
        · show (check_stream_status t (some d) s).lm.current_viewers ≤
            (check_stream_status t (some d) s).lm.peak_viewers
          rw [hlm]

/-- C5: whenever a trace leaves the tracker live, peak_viewers equals the
running maximum of the viewer counts reported by polls since the current
stream started (initialised to the first reported count at the
OFFLINE-to-LIVE transition), and current_viewers never exceeds it. -/
theorem peak_viewers_running_max (evs : List Ev)
    (h : (run evs).lm.is_live = true) :
    (run evs).lm.peak_viewers = runningMax (segView evs).samples ∧
    (run evs).lm.current_viewers ≤ (run evs).lm.peak_viewers := by
  have hinv : PeakInv (run evs) (segView evs) :=
    foldl_invariant_pair step segStep PeakInv peakInv_step evs
      initState { live := false, samples := [] }
      ⟨rfl, fun hp => absurd hp (by simp)⟩
  obtain ⟨h1, h2⟩ := hinv
  obtain ⟨_, hpeak, hcur⟩ := h2 (h1.symm.trans h)
  exact ⟨hpeak, hcur⟩

/-- Witness trace for the running maximum: live at 50, then polls
reporting 80 and 60 viewers. -/
def pollTrace : List Ev :=
  [Ev.poll 0 (some ⟨50, "g", "i", 0⟩),
   Ev.poll 1 (some ⟨80, "g", "i", 0⟩),
   Ev.poll 2 (some ⟨60, "g", "i", 0⟩)]

/-- Witness for peak_viewers_running_max: after samples 50, 80, 60 the
peak is the running maximum 80 and is at least the current count 60. -/
theorem peak_viewers_running_max_witness :
    (run pollTrace).lm.is_live = true ∧
    ((run pollTrace).lm.peak_viewers = runningMax (segView pollTrace).samples ∧
     (run pollTrace).lm.current_viewers ≤ (run pollTrace).lm.peak_viewers) :=
  ⟨by with_unfolding_all decide,
   peak_viewers_running_max pollTrace (by with_unfolding_all decide)⟩

/-- Bounds on the three sequences the handlers do trim on every append. -/
def BoundsInv (s : TrackerState) : Prop :=
  s.lm.viewer_retention.length ≤ 60 ∧
  s.lm.chat_activity.length ≤ 30 ∧
  s.lm.recent_subscribers.length ≤ 20

theorem boundsInv_step (s : TrackerState) (e : Ev) (h : BoundsInv s) :
    BoundsInv (step s e) := by
  obtain ⟨h1, h2, h3⟩ := h
  cases e with
  | chat t a b c d =>
    have hlm := on_chat_message_lm t a b c d s
    refine ⟨?_, ?_, ?_⟩
    · show (on_chat_message t a b c d s).lm.viewer_retention.length ≤ 60
      rw [hlm]; exact h1
    · show (on_chat_message t a b c d s).lm.chat_activity.length ≤ 30
      rw [hlm]
      show (match bumpBucket (minuteBucket t) s.lm.chat_activity with
        | some x => x
        | none => keepLast 30 (s.lm.chat_activity ++
            [(⟨minuteBucket t, 1⟩ : ActivityBucket)])).length ≤ 30
      cases hbm : bumpBucket (minuteBucket t) s.lm.chat_activity with
      | some x =>
        dsimp only
        rw [bumpBucket_length (minuteBucket t) s.lm.chat_activity x hbm]
        exact h2
      | none =>
        dsimp only
        rw [keepLast_length]
        exact Nat.min_le_right _ _
    · show (on_chat_message t a b c d s).lm.recent_subscribers.length ≤ 20
      rw [hlm]; exact h3
  | sub t u tier g m =>
    have hlm := on_subscription_lm t u tier g m s
    refine ⟨?_, ?_, ?_⟩
    · show (on_subscription t u tier g m s).lm.viewer_retention.length ≤ 60
      rw [hlm]; exact h1
    · show (on_subscription t u tier g m s).lm.chat_activity.length ≤ 30
      rw [hlm]; exact h2
    · show (on_subscription t u tier g m s).lm.recent_subscribers.length ≤ 20
      rw [hlm]
      show (keepLast 20 (s.lm.recent_subscribers ++
        [(⟨t, u, tier, g, m⟩ : SubRecord)])).length ≤ 20
      rw [keepLast_length]
      exact Nat.min_le_right _ _
  | raid t r v =>
    exact ⟨h1, h2, h3⟩
  | poll t info =>
    cases info with
    | none =>
      obtain ⟨_, hr, ha, hs2, _, _⟩ := check_none_lm t s
      refine ⟨?_, ?_, ?_⟩
      · show (check_stream_status t none s).lm.viewer_retention.length ≤ 60
        rw [hr]; exact h1
      · show (check_stream_status t none s).lm.chat_activity.length ≤ 30
        rw [ha]; exact h2
      · show (check_stream_status t none s).lm.recent_subscribers.length ≤ 20
        rw [hs2]; exact h3
    | some d =>
      by_cases hb : s.lm.is_live = true
      · have hlm := check_some_live_lm t d s hb
        refine ⟨?_, ?_, ?_⟩
        · show (check_stream_status t (some d) s).lm.viewer_retention.length ≤ 60
          rw [hlm]
          show (keepLast 60 (s.lm.viewer_retention ++
            [(⟨t, d.viewer_count⟩ : RetentionPoint)])).length ≤ 60
          rw [keepLast_length]
          exact Nat.min_le_right _ _
        · show (check_stream_status t (some d) s).lm.chat_activity.length ≤ 30
          rw [hlm]; exact h2
        · show (check_stream_status t (some d) s).lm.recent_subscribers.length ≤ 20
          rw [hlm]; exact h3
      · have hb' : s.lm.is_live = false := by
          cases hq : s.lm.is_live
          · rfl
          · exact absurd hq hb
        have hlm := check_some_start_lm t d s hb'
        refine ⟨?_, ?_, ?_⟩
        · show (check_stream_status t (some d) s).lm.viewer_retention.length ≤ 60
          rw [hlm]; exact h1
        · show (check_stream_status t (some d) s).lm.chat_activity.length ≤ 30
          rw [hlm]; exact h2
        · show (check_stream_status t (some d) s).lm.recent_subscribers.length ≤ 20
          rw [hlm]; exact h3

/-- C2 amended: viewer_retention, chat_activity and recent_subscribers
never exceed 60, 30 and 20 entries over any event trace, recent_events is
trimmed to 100 entries by on_subscription and on_raid, and the eviction
primitive keeps a suffix of the appended sequence (oldest entries are
dropped first); but on_chat_message appends its recent-events entry
without trimming, so the 100-entry bound on recent_events does not hold
after every handler. -/
theorem bounded_sequences_amended :
    (∀ evs : List Ev,
      (run evs).lm.viewer_retention.length ≤ 60 ∧
      (run evs).lm.chat_activity.length ≤ 30 ∧
      (run evs).lm.recent_subscribers.length ≤ 20) ∧
    (∀ (t : Time) (user tier : String) (g : Bool) (m : Nat)
        (s : TrackerState),
      (on_subscription t user tier g m s).lm.recent_events.length ≤ 100) ∧
    (∀ (t : Time) (r : String) (v : Nat) (s : TrackerState),
      (on_raid t r v s).lm.recent_events.length ≤ 100) ∧
    (∀ (n : Nat) (l : List EventEntry), ∃ k, keepLast n l = l.drop k) := by
  refine ⟨?_, ?_, ?_, ?_⟩
  · intro evs
    exact foldl_invariant step BoundsInv boundsInv_step evs initState
      ⟨by simp [initState, initMetrics], by simp [initState, initMetrics],
       by simp [initState, initMetrics]⟩
  · intro t user tier g m s
    rw [on_subscription_lm]
    show (keepLast 100 (s.lm.recent_events ++
      [(⟨t, "subscription", subEventMessage user tier g m⟩ : EventEntry)])).length ≤ 100
    rw [keepLast_length]
    exact Nat.min_le_right _ _
  · intro t r v s
    show (keepLast 100 (s.lm.recent_events ++
      [(⟨t, "raid", raidEventMessage r v⟩ : EventEntry)])).length ≤ 100
    rw [keepLast_length]
    exact Nat.min_le_right _ _
  · intro n l
    exact keepLast_eq_drop n l

end TwitchTracker
